import Mathlib

/-!
Verification of the QPV/ZRR checker (`streamlit_app.py`).

Shallow embedding of the core of the program:
  * `calcul_proximite_qpv` — containment / nearest-distance over a polygon set;
  * `check_zrr_statut` — ZRR membership lookup with municipality-code normalization;
  * `load_zrr_data` — parsing of the ZRR reference table;
  * `load_qpv_polygones` — polygon loading with CRS checking/reprojection.

Distances are modelled with exact rationals.  The geometry library (shapely)
is external to the repository; a geometry is modelled by its two operations
used by the code, `contains` and `dist`, together with the library contract
stated in the spec: distance is non-negative, and the distance from a
geometry to a point it contains is zero ("zero if inside or touching").
-/

namespace QpvZrr

/-- A planar coordinate pair (shapely `Point`). -/
structure Pt where
  x : ℚ
  y : ℚ
deriving Repr, DecidableEq

/-- A planar geometry as seen by `calcul_proximite_qpv`: the two shapely
operations the code calls, plus the geometric facts the spec records about
them (distance is non-negative; a contained point is at distance zero). -/
structure Geometry where
  contains : Pt → Bool
  dist : Pt → ℚ
  dist_nonneg : ∀ p, 0 ≤ dist p
  contains_dist : ∀ p, contains p = true → dist p = 0

/-- One row of the QPV GeoDataFrame: a geometry plus the three attribute
columns read by the code (`row.get` returns null for a missing column,
hence `Option`). -/
structure QpvRow where
  geom : Geometry
  code_qp : Option String
  lib_qp : Option String
  lib_com : Option String

/-- A `{code_qp, lib_qp, commune_qp}` triple as built for `qpv_dans_lesquels`. -/
structure QpvInfo where
  code_qp : Option String
  lib_qp : Option String
  commune_qp : Option String
deriving Repr, DecidableEq

/-- The `qpv_plus_proche` record. -/
structure QpvPlusProche where
  code_qp : Option String
  lib_qp : Option String
  commune_qp : Option String
  distance_km : ℚ
deriving Repr, DecidableEq

/-- The result dictionary of `calcul_proximite_qpv`.  In Python the
`qpv_plus_proche` entry is a nullable dictionary value (the UI guards on
it), hence `Option`. -/
structure ProximityResult where
  est_dans_qpv : Bool
  distance_km : ℚ
  a_moins_1km_qpv : Bool
  qpv_dans_lesquels : List QpvInfo
  qpv_plus_proche : Option QpvPlusProche
deriving Repr, DecidableEq

/-- `distances_m.min()`: minimum of the distance series over a non-empty
GeoDataFrame `r0 :: rest`. -/
def minDistM (pt : Pt) (r0 : QpvRow) (rest : List QpvRow) : ℚ :=
  (rest.map (fun r => r.geom.dist pt)).foldl min (r0.geom.dist pt)

/-- `qpv_gdf.loc[distances_m.idxmin()]`: the first row attaining the
minimum distance (pandas `idxmin` returns the first occurrence). -/
def rowIdxMin (pt : Pt) (r0 : QpvRow) (rest : List QpvRow) : QpvRow :=
  match rest with
  | [] => r0
  | r :: rs => if r.geom.dist pt < r0.geom.dist pt then rowIdxMin pt r rs else rowIdxMin pt r0 rs

/-- The `{code_qp, lib_qp, commune_qp}` triple built from a row. -/
def toInfo (r : QpvRow) : QpvInfo :=
  ⟨r.code_qp, r.lib_qp, r.lib_com⟩

/-- `calcul_proximite_qpv(pt_wgs, qpv_gdf)`.  The WGS84→planar reprojection
performed on line 57 of the source is an external CRS transformation,
passed here as the function `reproject`. -/
def calcul_proximite_qpv (reproject : Pt → Pt) (pt_wgs : Option Pt)
    (qpv_gdf : List QpvRow) : Option ProximityResult :=
  match pt_wgs, qpv_gdf with
  | none, _ => none
  | some _, [] => none
  | some pt, r0 :: rest =>
    let pt_proj := reproject pt
    let qpv_inside := (r0 :: rest).filter (fun r => r.geom.contains pt_proj)
    let est_dans_qpv := !qpv_inside.isEmpty
    let qpv_dans_lesquels := if est_dans_qpv then qpv_inside.map toInfo else []
    let min_dist_m := minDistM pt_proj r0 rest
    let distance_km := min_dist_m / 1000
    let a_moins_1km_qpv : Bool := decide (distance_km ≤ 1)
    let row_min := rowIdxMin pt_proj r0 rest
    let qpv_plus_proche : QpvPlusProche :=
      ⟨row_min.code_qp, row_min.lib_qp, row_min.lib_com, distance_km⟩
    some ⟨est_dans_qpv, distance_km, a_moins_1km_qpv, qpv_dans_lesquels, some qpv_plus_proche⟩

/-- A Python value as it reaches `check_zrr_statut` / the CODGEO column:
`None`, a string, or a number (pandas may parse codes as integers). -/
inductive PyVal where
  | none : PyVal
  | str : String → PyVal
  | int : Int → PyVal
deriving Repr, DecidableEq

/-- Python truthiness of a `PyVal` (`if not code_commune`). -/
def pyTruthy : PyVal → Bool
  | .none => false
  | .str s => !s.isEmpty
  | .int n => decide (n ≠ 0)

/-- Python `str()` of a `PyVal`. -/
def pyStr : PyVal → String
  | .none => "None"
  | .str s => s
  | .int n => toString n

/-- Python `str.zfill(width)`: left-pad with ASCII zeros to `width`;
a leading sign character keeps its place; the string is returned
unchanged when already at least `width` long. -/
def zfill (s : String) (width : Nat) : String :=
  if s.length ≥ width then s
  else
    let fill := List.replicate (width - s.length) '0'
    match s.data with
    | [] => String.mk fill
    | c :: cs =>
      if c = '+' ∨ c = '-' then String.mk (c :: (fill ++ cs))
      else String.mk (fill ++ (c :: cs))

/-- One row of the ZRR DataFrame after loading: `CODGEO` (normalized to a
string by `load_zrr_data`), and the two columns read elsewhere, nullable
(a missing cell is NaN, read back as null by `.get`). -/
structure ZrrRow where
  CODGEO : String
  LIBGEO : Option String
  ZRR_SIMP : Option String
deriving Repr, DecidableEq

/-- `check_zrr_statut(code_commune, df_zrr, communes_zrr)`.
The Python set `communes_zrr` is modelled by a list queried by membership. -/
def check_zrr_statut (code_commune : PyVal) (df_zrr : List ZrrRow)
    (communes_zrr : List String) : Option Bool × Option String :=
  if !pyTruthy code_commune then (none, none)
  else
    let code := zfill (pyStr code_commune) 5
    let is_zrr : Bool := decide (code ∈ communes_zrr)
    let zrr_label : Option String :=
      if is_zrr then
        match df_zrr.filter (fun r => r.CODGEO = code) with
        | [] => none
        | r :: _ => r.LIBGEO
      else none
    (some is_zrr, zrr_label)

/-- One data row of the ZRR source CSV as parsed by
`pd.read_csv(path, header=5)` (the six-line preamble — five skipped lines
plus the header line — is consumed by the parser; only data rows remain).
`CODGEO` may be parsed as a number or a string, `ZRR_SIMP`/`LIBGEO` may be
NaN (`Option.none`). -/
structure RawZrrRow where
  CODGEO : PyVal
  LIBGEO : Option String
  ZRR_SIMP : Option String
deriving Repr, DecidableEq

/-- `ZRR_SIMP.str.startswith(("C", "P"), na=False)`. -/
def zrrMarker : Option String → Bool
  | Option.none => false
  | Option.some z => z.startsWith "C" || z.startsWith "P"

/-- `load_zrr_data(path)`.  The file is `none` when absent, otherwise the
list of parsed data rows.  Returns the DataFrame (CODGEO cast to `str` and
zero-filled to width 5) and the `communes_zrr` membership set. -/
def load_zrr_data (file : Option (List RawZrrRow)) : List ZrrRow × List String :=
  match file with
  | Option.none => ([], [])
  | Option.some rows =>
    let df_zrr := rows.map (fun r => ZrrRow.mk (zfill (pyStr r.CODGEO) 5) r.LIBGEO r.ZRR_SIMP)
    let communes_zrr := (df_zrr.filter (fun r => zrrMarker r.ZRR_SIMP)).map (fun r => r.CODGEO)
    (df_zrr, communes_zrr)

/-- The QPV source file: its declared CRS (EPSG code, `none` when the file
declares no CRS) and its geometry rows. -/
structure QpvFile where
  crs : Option Nat
  rows : List QpvRow

/-- A loaded GeoDataFrame: its CRS and rows.  A freshly constructed empty
`gpd.GeoDataFrame()` has no CRS. -/
structure Gdf where
  crs : Option Nat
  rows : List QpvRow

/-- `load_qpv_polygones(path)`.  The file is `none` when absent.  The
`to_crs(epsg=2154)` reprojection is an external CRS transformation, passed
as `reproj` (source EPSG → row transformation).  `raise ValueError` is
modelled by `Except.error`. -/
def load_qpv_polygones (reproj : Nat → QpvRow → QpvRow)
    (file : Option QpvFile) : Except String Gdf :=
  match file with
  | Option.none => .ok ⟨Option.none, []⟩
  | Option.some f =>
    match f.crs with
    | Option.none => .error "Le fichier QPV n'a pas de CRS."
    | Option.some epsg =>
      if epsg ≠ 2154 then .ok ⟨some 2154, f.rows.map (reproj epsg)⟩
      else .ok ⟨some epsg, f.rows⟩

/-! ### Lemmas about the minimum-distance scan -/

lemma foldl_min_le_init (l : List ℚ) (a : ℚ) : l.foldl min a ≤ a := by
  induction l generalizing a with
  | nil => simp
  | cons x xs ih =>
    simpa using le_trans (ih (min a x)) (min_le_left a x)

lemma foldl_min_le_mem (l : List ℚ) (a : ℚ) : ∀ x ∈ l, l.foldl min a ≤ x := by
  induction l generalizing a with
  | nil => simp
  | cons y ys ih =>
    intro x hx
    rcases List.mem_cons.mp hx with h | h
    · subst h
      simpa using le_trans (foldl_min_le_init ys (min a x)) (min_le_right a x)
    · simpa using ih (min a y) x h

lemma foldl_min_attained (l : List ℚ) (a : ℚ) : l.foldl min a = a ∨ l.foldl min a ∈ l := by
  induction l generalizing a with
  | nil => simp
  | cons x xs ih =>
    simp only [List.foldl_cons]
    rcases ih (min a x) with h | h
    · rcases min_choice a x with he | he
      · left; rw [h, he]
      · right; rw [h, he]; exact List.mem_cons_self x xs
    · right; exact List.mem_cons_of_mem x h

lemma minDistM_le (pt : Pt) (r0 : QpvRow) (rest : List QpvRow) :
    ∀ r ∈ r0 :: rest, minDistM pt r0 rest ≤ r.geom.dist pt := by
  intro r hr
  rcases List.mem_cons.mp hr with h | h
  · subst h; exact foldl_min_le_init _ _
  · exact foldl_min_le_mem _ _ _ (List.mem_map_of_mem (fun r => r.geom.dist pt) h)

lemma minDistM_attained (pt : Pt) (r0 : QpvRow) (rest : List QpvRow) :
    ∃ r ∈ r0 :: rest, r.geom.dist pt = minDistM pt r0 rest := by
  rcases foldl_min_attained (rest.map (fun r => r.geom.dist pt)) (r0.geom.dist pt) with h | h
  · exact ⟨r0, List.mem_cons_self _ _, h.symm⟩
  · rcases List.mem_map.mp h with ⟨r, hr, hd⟩
    exact ⟨r, List.mem_cons_of_mem _ hr, hd⟩

lemma minDistM_nonneg (pt : Pt) (r0 : QpvRow) (rest : List QpvRow) :
    0 ≤ minDistM pt r0 rest := by
  rcases minDistM_attained pt r0 rest with ⟨r, _, hd⟩
  exact hd ▸ r.geom.dist_nonneg pt

lemma rowIdxMin_mem (pt : Pt) (r0 : QpvRow) (rest : List QpvRow) :
    rowIdxMin pt r0 rest ∈ r0 :: rest := by
  induction rest generalizing r0 with
  | nil => simp [rowIdxMin]
  | cons r rs ih =>
    simp only [rowIdxMin]
    by_cases h : r.geom.dist pt < r0.geom.dist pt
    · rw [if_pos h]
      exact List.mem_cons_of_mem r0 (ih r)
    · rw [if_neg h]
      rcases List.mem_cons.mp (ih r0) with he | hm
      · rw [he]; exact List.mem_cons_self _ _
      · exact List.mem_cons_of_mem _ (List.mem_cons_of_mem _ hm)

lemma rowIdxMin_dist (pt : Pt) (r0 : QpvRow) (rest : List QpvRow) :
    (rowIdxMin pt r0 rest).geom.dist pt = minDistM pt r0 rest := by
  induction rest generalizing r0 with
  | nil => simp [rowIdxMin, minDistM]
  | cons r rs ih =>
    simp only [rowIdxMin, minDistM, List.map_cons, List.foldl_cons]
    by_cases h : r.geom.dist pt < r0.geom.dist pt
    · rw [if_pos h, min_eq_right (le_of_lt h)]
      exact ih r
    · rw [if_neg h, min_eq_left (not_lt.mp h)]
      exact ih r0

/-- `calcul_proximite_qpv` on a non-null point and non-empty set,
with its result spelled out. -/
lemma calcul_proximite_qpv_cons (reproject : Pt → Pt) (p : Pt) (r0 : QpvRow)
    (rest : List QpvRow) :
    calcul_proximite_qpv reproject (some p) (r0 :: rest) = some
      { est_dans_qpv := !((r0 :: rest).filter
            (fun r => r.geom.contains (reproject p))).isEmpty,
        distance_km := minDistM (reproject p) r0 rest / 1000,
        a_moins_1km_qpv := decide (minDistM (reproject p) r0 rest / 1000 ≤ 1),
        qpv_dans_lesquels :=
          if !((r0 :: rest).filter (fun r => r.geom.contains (reproject p))).isEmpty then
            ((r0 :: rest).filter (fun r => r.geom.contains (reproject p))).map toInfo
          else [],
        qpv_plus_proche := some
          ⟨(rowIdxMin (reproject p) r0 rest).code_qp,
           (rowIdxMin (reproject p) r0 rest).lib_qp,
           (rowIdxMin (reproject p) r0 rest).lib_com,
           minDistM (reproject p) r0 rest / 1000⟩ } := rfl

/-! ### Claim theorems -/

/-- C1: `calcul_proximite_qpv` returns null exactly when the point is null
or the polygon set is empty: null point ⇒ null result for every polygon
set; empty polygon set ⇒ null result for every point; a non-null point
with a non-empty polygon set always yields a non-null result record. -/
theorem claimC1_null_exactly (reproject : Pt → Pt) :
    (∀ qpv_gdf : List QpvRow,
      calcul_proximite_qpv reproject Option.none qpv_gdf = Option.none) ∧
    (∀ pt_wgs : Option Pt,
      calcul_proximite_qpv reproject pt_wgs [] = Option.none) ∧
    (∀ (p : Pt) (r0 : QpvRow) (rest : List QpvRow),
      (calcul_proximite_qpv reproject (some p) (r0 :: rest)).isSome = true) := by
  refine ⟨fun _ => rfl, fun pt => ?_, fun p r0 rest => ?_⟩
  · cases pt <;> rfl
  · rw [calcul_proximite_qpv_cons]; rfl

/-- C2: on a non-null point and non-empty polygon set, the
`a_moins_1km_qpv` flag of the result is true iff `distance_km ≤ 1`,
boundary inclusive. -/
theorem claimC2_threshold_iff (reproject : Pt → Pt) (p : Pt) (r0 : QpvRow)
    (rest : List QpvRow) (res : ProximityResult)
    (h : calcul_proximite_qpv reproject (some p) (r0 :: rest) = some res) :
    res.a_moins_1km_qpv = true ↔ res.distance_km ≤ 1 := by
  rw [calcul_proximite_qpv_cons] at h
  injection h with h
  subst h
  simp

/-- C3: on a non-null point and non-empty polygon set, `est_dans_qpv` is
true iff some polygon of the set contains the (reprojected) point, and
`qpv_dans_lesquels` is exactly the list of all containing polygons,
each as a `{code_qp, lib_qp, commune_qp}` triple. -/
theorem claimC3_containment (reproject : Pt → Pt) (p : Pt) (r0 : QpvRow)
    (rest : List QpvRow) (res : ProximityResult)
    (h : calcul_proximite_qpv reproject (some p) (r0 :: rest) = some res) :
    (res.est_dans_qpv = true ↔
      ∃ r ∈ r0 :: rest, r.geom.contains (reproject p) = true) ∧
    res.qpv_dans_lesquels =
      ((r0 :: rest).filter (fun r => r.geom.contains (reproject p))).map toInfo := by
  rw [calcul_proximite_qpv_cons] at h
  injection h with h
  subst h
  constructor
  · simp only [Bool.not_eq_true', List.isEmpty_eq_false_iff_exists_mem]
    constructor
    · rintro ⟨r, hr⟩
      rcases List.mem_filter.mp hr with ⟨hm, hc⟩
      exact ⟨r, hm, hc⟩
    · rintro ⟨r, hm, hc⟩
      exact ⟨r, List.mem_filter.mpr ⟨hm, hc⟩⟩
  · cases hfe : (r0 :: rest).filter (fun r => r.geom.contains (reproject p)) with
    | nil => simp [hfe]
    | cons a as => simp [hfe]

/-- C10: every non-null result of `calcul_proximite_qpv` is internally
consistent: `qpv_plus_proche` is non-null, its `distance_km` equals the
top-level `distance_km`, and `est_dans_qpv` is true exactly when
`qpv_dans_lesquels` is non-empty. -/
theorem claimC10_internal_consistency (reproject : Pt → Pt)
    (pt_wgs : Option Pt) (qpv_gdf : List QpvRow) (res : ProximityResult)
    (h : calcul_proximite_qpv reproject pt_wgs qpv_gdf = some res) :
    res.qpv_plus_proche.isSome = true ∧
    (∀ q, res.qpv_plus_proche = some q → q.distance_km = res.distance_km) ∧
    (res.est_dans_qpv = true ↔ res.qpv_dans_lesquels ≠ []) := by
  match pt_wgs, qpv_gdf with
  | Option.none, _ => exact absurd h (by simp [calcul_proximite_qpv])
  | some p, [] => exact absurd h (by simp [calcul_proximite_qpv])
  | some p, r0 :: rest =>
    rw [calcul_proximite_qpv_cons] at h
    injection h with h
    subst h
    refine ⟨rfl, ?_, ?_⟩
    · intro q hq
      injection hq with hq
      subst hq
      rfl
    · cases hfe : (r0 :: rest).filter (fun r => r.geom.contains (reproject p)) with
      | nil => simp [hfe]
      | cons a as => simp [hfe]

/-- C4: on a non-null point and non-empty polygon set, `distance_km` is the
minimum over all polygons of the planar distance to the reprojected point,
divided by 1000; `qpv_plus_proche` is a polygon attaining that minimum; and
a point contained in some polygon yields containment true and distance 0. -/
theorem claimC4_min_distance (reproject : Pt → Pt) (p : Pt) (r0 : QpvRow)
    (rest : List QpvRow) (res : ProximityResult)
    (h : calcul_proximite_qpv reproject (some p) (r0 :: rest) = some res) :
    (∀ r ∈ r0 :: rest, res.distance_km ≤ r.geom.dist (reproject p) / 1000) ∧
    (∃ rm ∈ r0 :: rest,
      res.distance_km = rm.geom.dist (reproject p) / 1000 ∧
      res.qpv_plus_proche =
        some ⟨rm.code_qp, rm.lib_qp, rm.lib_com, res.distance_km⟩) ∧
    (∀ r ∈ r0 :: rest, r.geom.contains (reproject p) = true →
      res.est_dans_qpv = true ∧ res.distance_km = 0) := by
  rw [calcul_proximite_qpv_cons] at h
  injection h with h
  subst h
  refine ⟨?_, ?_, ?_⟩
  · intro r hr
    show minDistM (reproject p) r0 rest / 1000 ≤ r.geom.dist (reproject p) / 1000
    have h1000 : (0 : ℚ) < 1000 := by norm_num
    exact (div_le_div_iff_of_pos_right h1000).mpr (minDistM_le (reproject p) r0 rest r hr)
  · refine ⟨rowIdxMin (reproject p) r0 rest, rowIdxMin_mem _ _ _, ?_, rfl⟩
    show minDistM (reproject p) r0 rest / 1000 =
      (rowIdxMin (reproject p) r0 rest).geom.dist (reproject p) / 1000
    rw [rowIdxMin_dist]
  · intro r hr hc
    have hd0 : r.geom.dist (reproject p) = 0 := r.geom.contains_dist _ hc
    constructor
    · show (!((r0 :: rest).filter
        (fun r => r.geom.contains (reproject p))).isEmpty) = true
      simp only [Bool.not_eq_true', List.isEmpty_eq_false_iff_exists_mem]
      exact ⟨r, List.mem_filter.mpr ⟨hr, hc⟩⟩
    · show minDistM (reproject p) r0 rest / 1000 = 0
      have hle := minDistM_le (reproject p) r0 rest r hr
      rw [hd0] at hle
      rw [le_antisymm hle (minDistM_nonneg (reproject p) r0 rest)]
      norm_num

/-- Modelled from the spec: the "brute-force recomputation" of the true
minimum planar distance from the point to the polygon set — scan every
polygon's distance, take the minimum, convert metres to kilometres by
dividing by 1000 (`none` on an empty set). -/
def bruteForceMinDistKm (pt : Pt) (rows : List QpvRow) : Option ℚ :=
  ((rows.map (fun r => r.geom.dist pt)).min?).map (fun m => m / 1000)

/-- C5: on a non-null point at strictly positive planar distance from
every polygon of a non-empty set (that is, strictly outside all of them),
containment is false, `distance_km` is strictly positive, and it equals
the brute-force minimum distance to the polygon set. -/
theorem claimC5_outside_all (reproject : Pt → Pt) (p : Pt) (r0 : QpvRow)
    (rest : List QpvRow) (res : ProximityResult)
    (h : calcul_proximite_qpv reproject (some p) (r0 :: rest) = some res)
    (hout : ∀ r ∈ r0 :: rest, 0 < r.geom.dist (reproject p)) :
    res.est_dans_qpv = false ∧ 0 < res.distance_km ∧
    bruteForceMinDistKm (reproject p) (r0 :: rest) = some res.distance_km := by
  rw [calcul_proximite_qpv_cons] at h
  injection h with h
  subst h
  have hnil : (r0 :: rest).filter (fun r => r.geom.contains (reproject p)) = [] := by
    rw [List.filter_eq_nil_iff]
    intro r hr hc
    have hd0 : r.geom.dist (reproject p) = 0 := r.geom.contains_dist _ hc
    have := hout r hr
    rw [hd0] at this
    exact absurd this (by norm_num)
  refine ⟨?_, ?_, ?_⟩
  · show (!((r0 :: rest).filter
      (fun r => r.geom.contains (reproject p))).isEmpty) = false
    simp [hnil]
  · show 0 < minDistM (reproject p) r0 rest / 1000
    rcases minDistM_attained (reproject p) r0 rest with ⟨r, hr, hd⟩
    have := hout r hr
    rw [hd] at this
    positivity
  · show bruteForceMinDistKm (reproject p) (r0 :: rest) =
      some (minDistM (reproject p) r0 rest / 1000)
    rfl

/-! ### Lemmas about the ZRR lookup -/

lemma check_zrr_statut_truthy (v : PyVal) (hv : pyTruthy v = true)
    (df_zrr : List ZrrRow) (communes_zrr : List String) :
    check_zrr_statut v df_zrr communes_zrr =
      (some (decide (zfill (pyStr v) 5 ∈ communes_zrr)),
       if decide (zfill (pyStr v) 5 ∈ communes_zrr) then
         match df_zrr.filter (fun r => r.CODGEO = zfill (pyStr v) 5) with
         | [] => Option.none
         | r :: _ => r.LIBGEO
       else Option.none) := by
  unfold check_zrr_statut
  rw [hv]
  rfl

lemma label_lookup_eq_find (df_zrr : List ZrrRow) (code : String) :
    (match df_zrr.filter (fun r => r.CODGEO = code) with
     | [] => Option.none
     | r :: _ => r.LIBGEO) =
    (df_zrr.find? (fun r => r.CODGEO = code)).bind ZrrRow.LIBGEO := by
  induction df_zrr with
  | nil => rfl
  | cons r rs ih =>
    by_cases h : r.CODGEO = code
    · simp [List.filter_cons, List.find?_cons, h]
    · simp only [List.filter_cons, List.find?_cons, h, decide_False,
        Bool.false_eq_true, if_false, cond_false]
      exact ih

/-- C6: `check_zrr_statut` returns (null, null) exactly on a null or empty
code; a non-empty code whose normalized form is absent from the membership
set yields (false, null); a member code yields (true, label) with the
label taken from the first table row matching the normalized code (null
when no row matches). -/
theorem claimC6_tristate (df_zrr : List ZrrRow) (communes_zrr : List String) :
    check_zrr_statut PyVal.none df_zrr communes_zrr = (Option.none, Option.none) ∧
    check_zrr_statut (PyVal.str "") df_zrr communes_zrr = (Option.none, Option.none) ∧
    (∀ s : String, s ≠ "" → zfill s 5 ∉ communes_zrr →
      check_zrr_statut (PyVal.str s) df_zrr communes_zrr =
        (some false, Option.none)) ∧
    (∀ s : String, s ≠ "" → zfill s 5 ∈ communes_zrr →
      check_zrr_statut (PyVal.str s) df_zrr communes_zrr =
        (some true,
         (df_zrr.find? (fun r => r.CODGEO = zfill s 5)).bind ZrrRow.LIBGEO)) := by
  refine ⟨rfl, rfl, ?_, ?_⟩
  · intro s hs hmem
    have hv : pyTruthy (PyVal.str s) = true := by
      have h1 : s.isEmpty = false := by
        cases h : s.isEmpty with
        | false => rfl
        | true => exact absurd ((String.isEmpty_iff s).mp h) hs
      simp [pyTruthy, h1]
    rw [check_zrr_statut_truthy _ hv]
    simp only [pyStr, decide_eq_false hmem, Bool.false_eq_true, if_false]
  · intro s hs hmem
    have hv : pyTruthy (PyVal.str s) = true := by
      have h1 : s.isEmpty = false := by
        cases h : s.isEmpty with
        | false => rfl
        | true => exact absurd ((String.isEmpty_iff s).mp h) hs
      simp [pyTruthy, h1]
    rw [check_zrr_statut_truthy _ hv]
    simp only [pyStr, decide_eq_true hmem, if_true]
    rw [label_lookup_eq_find]

/-- C7: municipality-code normalization is representation-invariant: the
inputs "1234", "01234" and the number 1234 all normalize to "01234", and
`check_zrr_statut` returns the identical result for all three on every
table. -/
theorem claimC7_normalization (df_zrr : List ZrrRow) (communes_zrr : List String) :
    zfill (pyStr (PyVal.str "1234")) 5 = "01234" ∧
    zfill (pyStr (PyVal.str "01234")) 5 = "01234" ∧
    zfill (pyStr (PyVal.int 1234)) 5 = "01234" ∧
    check_zrr_statut (PyVal.str "1234") df_zrr communes_zrr =
      check_zrr_statut (PyVal.str "01234") df_zrr communes_zrr ∧
    check_zrr_statut (PyVal.int 1234) df_zrr communes_zrr =
      check_zrr_statut (PyVal.str "01234") df_zrr communes_zrr := by
  refine ⟨by decide, by decide, by decide, ?_, ?_⟩
  · rw [check_zrr_statut_truthy _ (by decide), check_zrr_statut_truthy _ (by decide)]
    rw [show zfill (pyStr (PyVal.str "1234")) 5 = zfill (pyStr (PyVal.str "01234")) 5
      from by decide]
  · rw [check_zrr_statut_truthy _ (by decide), check_zrr_statut_truthy _ (by decide)]
    rw [show zfill (pyStr (PyVal.int 1234)) 5 = zfill (pyStr (PyVal.str "01234")) 5
      from by decide]

/-- C8: `load_zrr_data` on an absent file yields an empty table and empty
membership set; on a present file it normalizes the CODGEO column to a
5-wide zero-padded string and its membership set holds exactly the codes
of rows whose ZRR_SIMP field starts with "C" or "P" (rows with a missing
field excluded). -/
theorem claimC8_zone_table :
    load_zrr_data Option.none = ([], []) ∧
    ∀ rows : List RawZrrRow,
      (load_zrr_data (Option.some rows)).1 =
        rows.map (fun r => ZrrRow.mk (zfill (pyStr r.CODGEO) 5) r.LIBGEO r.ZRR_SIMP) ∧
      ∀ code : String,
        code ∈ (load_zrr_data (Option.some rows)).2 ↔
        ∃ r ∈ (load_zrr_data (Option.some rows)).1, r.CODGEO = code ∧
          ∃ z, r.ZRR_SIMP = Option.some z ∧
            (z.startsWith "C" || z.startsWith "P") = true := by
  refine ⟨rfl, fun rows => ⟨rfl, fun code => ?_⟩⟩
  show code ∈ (((load_zrr_data (Option.some rows)).1.filter
      (fun r => zrrMarker r.ZRR_SIMP)).map (fun r => r.CODGEO)) ↔ _
  simp only [List.mem_map, List.mem_filter]
  constructor
  · rintro ⟨r, ⟨hm, hz⟩, hc⟩
    cases hzr : r.ZRR_SIMP with
    | none => rw [hzr] at hz; exact absurd hz (by simp [zrrMarker])
    | some z =>
      refine ⟨r, hm, hc, z, hzr, ?_⟩
      rw [hzr] at hz
      exact hz
  · rintro ⟨r, hm, hc, z, hzr, hz⟩
    refine ⟨r, ⟨hm, ?_⟩, hc⟩
    rw [hzr]
    exact hz

/-- C9: `load_qpv_polygones` on an absent file returns an empty polygon
set (not an error); on a present file with no declared CRS it raises; on a
present file in another CRS it reprojects every geometry exactly once; and
every successfully loaded non-empty polygon set carries the planar CRS
EPSG:2154. -/
theorem claimC9_polygon_load (reproj : Nat → QpvRow → QpvRow) :
    load_qpv_polygones reproj Option.none = .ok ⟨Option.none, []⟩ ∧
    (∀ rows : List QpvRow,
      load_qpv_polygones reproj (Option.some ⟨Option.none, rows⟩) =
        .error "Le fichier QPV n'a pas de CRS.") ∧
    (∀ (epsg : Nat) (rows : List QpvRow), epsg ≠ 2154 →
      load_qpv_polygones reproj (Option.some ⟨Option.some epsg, rows⟩) =
        .ok ⟨Option.some 2154, rows.map (reproj epsg)⟩) ∧
    (∀ rows : List QpvRow,
      load_qpv_polygones reproj (Option.some ⟨Option.some 2154, rows⟩) =
        .ok ⟨Option.some 2154, rows⟩) ∧
    (∀ (file : Option QpvFile) (g : Gdf),
      load_qpv_polygones reproj file = .ok g → g.rows ≠ [] →
        g.crs = Option.some 2154) := by
  refine ⟨rfl, fun rows => rfl, fun epsg rows hne => ?_, fun rows => ?_, ?_⟩
  · simp [load_qpv_polygones, hne]
  · simp [load_qpv_polygones]
  · intro file g hg hne
    match file with
    | Option.none =>
      injection hg with hg
      rw [← hg] at hne
      exact absurd rfl hne
    | Option.some ⟨Option.none, rows⟩ => exact Except.noConfusion hg
    | Option.some ⟨Option.some epsg, rows⟩ =>
      have hg' : (if epsg ≠ 2154 then
          Except.ok (Gdf.mk (Option.some 2154) (rows.map (reproj epsg)))
        else Except.ok (Gdf.mk (Option.some epsg) rows)) = Except.ok g := hg
      by_cases he : epsg ≠ 2154
      · rw [if_pos he] at hg'
        injection hg' with h
        rw [← h]
      · rw [if_neg he] at hg'
        have he' : epsg = 2154 := not_not.mp he
        subst he'
        injection hg' with h
        rw [← h]

/-! ### Concrete witness data

A point together with three polygons: one containing the point (distance
0), one 1000 m away (the 1 km boundary), one 2500 m away. -/

def gIn : Geometry where
  contains := fun _ => true
  dist := fun _ => 0
  dist_nonneg := fun _ => le_refl 0
  contains_dist := fun _ _ => rfl

def gFar : Geometry where
  contains := fun _ => false
  dist := fun _ => 1000
  dist_nonneg := fun _ => by norm_num
  contains_dist := fun _ h => Bool.noConfusion h

def gVeryFar : Geometry where
  contains := fun _ => false
  dist := fun _ => 2500
  dist_nonneg := fun _ => by norm_num
  contains_dist := fun _ h => Bool.noConfusion h

def rowIn : QpvRow :=
  ⟨gIn, Option.some "QP1", Option.some "Quartier Un", Option.some "VilleA"⟩

def rowFar : QpvRow :=
  ⟨gFar, Option.some "QP2", Option.some "Quartier Deux", Option.some "VilleB"⟩

def rowVeryFar : QpvRow :=
  ⟨gVeryFar, Option.some "QP3", Option.some "Quartier Trois", Option.some "VilleC"⟩

def wpt : Pt := ⟨2, 3⟩

/-- Result of the scan over `[rowFar]` or `[rowFar, rowVeryFar]`:
outside, exactly 1.000 km away. -/
def resFar : ProximityResult :=
  ⟨false, 1, true, [],
   Option.some ⟨Option.some "QP2", Option.some "Quartier Deux", Option.some "VilleB", 1⟩⟩

/-- Result of the scan over `[rowIn, rowFar]`: inside `QP1`, distance 0. -/
def resIn : ProximityResult :=
  ⟨true, 0, true, [⟨Option.some "QP1", Option.some "Quartier Un", Option.some "VilleA"⟩],
   Option.some ⟨Option.some "QP1", Option.some "Quartier Un", Option.some "VilleA", 0⟩⟩

lemma calc_far : calcul_proximite_qpv id (Option.some wpt) [rowFar] = Option.some resFar := by
  rw [calcul_proximite_qpv_cons]
  have hd : minDistM (id wpt) rowFar [] = 1000 := rfl
  have h2 : (1000 : ℚ) / 1000 = 1 := by norm_num
  rw [hd, h2]
  rfl

lemma calc_in : calcul_proximite_qpv id (Option.some wpt) [rowIn, rowFar] =
    Option.some resIn := by
  rw [calcul_proximite_qpv_cons]
  have hd : minDistM (id wpt) rowIn [rowFar] = 0 := by
    show min (0 : ℚ) 1000 = 0
    exact min_eq_left (by norm_num)
  have h2 : (0 : ℚ) / 1000 = 0 := by norm_num
  rw [hd, h2]
  rfl

lemma calc_far2 : calcul_proximite_qpv id (Option.some wpt) [rowFar, rowVeryFar] =
    Option.some resFar := by
  rw [calcul_proximite_qpv_cons]
  have hd : minDistM (id wpt) rowFar [rowVeryFar] = 1000 := by
    show min (1000 : ℚ) 2500 = 1000
    exact min_eq_left (by norm_num)
  have h2 : (1000 : ℚ) / 1000 = 1 := by norm_num
  rw [hd, h2]
  rfl

/-- Witness for C2 at a polygon exactly 1000 m away (inclusive boundary). -/
theorem claimC2_threshold_iff_witness :
    resFar.a_moins_1km_qpv = true ↔ resFar.distance_km ≤ 1 :=
  claimC2_threshold_iff id wpt rowFar [] resFar calc_far

/-- Witness for C3 on a point inside one of two polygons. -/
theorem claimC3_containment_witness :
    (resIn.est_dans_qpv = true ↔ ∃ r ∈ [rowIn, rowFar], r.geom.contains wpt = true) ∧
    resIn.qpv_dans_lesquels =
      ([rowIn, rowFar].filter (fun r => r.geom.contains wpt)).map toInfo :=
  claimC3_containment id wpt rowIn [rowFar] resIn calc_in

/-- Witness for C4 on a point inside one of two polygons. -/
theorem claimC4_min_distance_witness :
    (∀ r ∈ [rowIn, rowFar], resIn.distance_km ≤ r.geom.dist wpt / 1000) ∧
    (∃ rm ∈ [rowIn, rowFar],
      resIn.distance_km = rm.geom.dist wpt / 1000 ∧
      resIn.qpv_plus_proche =
        Option.some ⟨rm.code_qp, rm.lib_qp, rm.lib_com, resIn.distance_km⟩) ∧
    (∀ r ∈ [rowIn, rowFar], r.geom.contains wpt = true →
      resIn.est_dans_qpv = true ∧ resIn.distance_km = 0) :=
  claimC4_min_distance id wpt rowIn [rowFar] resIn calc_in

/-- Witness for C5 on a point strictly outside both polygons. -/
theorem claimC5_outside_all_witness :
    resFar.est_dans_qpv = false ∧ 0 < resFar.distance_km ∧
    bruteForceMinDistKm wpt [rowFar, rowVeryFar] = Option.some resFar.distance_km :=
  claimC5_outside_all id wpt rowFar [rowVeryFar] resFar calc_far2 (by
    intro r hr
    rcases List.mem_cons.mp hr with h | h
    · subst h; show (0:ℚ) < 1000; norm_num
    · rcases List.mem_cons.mp h with h2 | h2
      · subst h2; show (0:ℚ) < 2500; norm_num
      · cases h2)

/-- Witness for C10 on a point inside one of two polygons. -/
theorem claimC10_internal_consistency_witness :
    resIn.qpv_plus_proche.isSome = true ∧
    (∀ q, resIn.qpv_plus_proche = Option.some q → q.distance_km = resIn.distance_km) ∧
    (resIn.est_dans_qpv = true ↔ resIn.qpv_dans_lesquels ≠ []) :=
  claimC10_internal_consistency id (Option.some wpt) [rowIn, rowFar] resIn calc_in

/-- The ZRR table of the spec's end-to-end scenario. -/
def wdf : List ZrrRow := [⟨"01234", Option.some "Commune A", Option.some "C"⟩]

def wset : List String := ["01234"]

/-- Witness for C6: member code "1234" (normalized "01234") and absent
code "99999" on a one-row table. -/
theorem claimC6_tristate_witness :
    check_zrr_statut (PyVal.str "1234") wdf wset =
      (Option.some true, Option.some "Commune A") ∧
    check_zrr_statut (PyVal.str "99999") wdf wset =
      (Option.some false, Option.none) := by
  have h := claimC6_tristate wdf wset
  refine ⟨?_, h.2.2.1 "99999" (by decide) (by decide)⟩
  rw [h.2.2.2 "1234" (by decide) (by decide)]
  rfl

def wreproj : Nat → QpvRow → QpvRow := fun _ r => r

/-- Witness for C9: a present file declared in EPSG:4326 is reprojected
and the loaded non-empty set carries EPSG:2154. -/
theorem claimC9_polygon_load_witness :
    load_qpv_polygones wreproj (Option.some ⟨Option.some 4326, [rowFar]⟩) =
      .ok ⟨Option.some 2154, [rowFar].map (wreproj 4326)⟩ ∧
    (⟨Option.some 2154, [rowFar].map (wreproj 4326)⟩ : Gdf).crs = Option.some 2154 := by
  have h := claimC9_polygon_load wreproj
  refine ⟨h.2.2.1 4326 [rowFar] (by decide), ?_⟩
  exact h.2.2.2.2 (Option.some ⟨Option.some 4326, [rowFar]⟩) _
    (h.2.2.1 4326 [rowFar] (by decide)) (by simp)

end QpvZrr
